import Mathlib

/-!
Shallow embedding of the bitrader portfolio engine
(`src/services/exchangeService.ts`) and proofs about the claims of its
specification.

Modelling conventions:
* JavaScript numbers are modelled as `ℚ`.
* Optional numeric fields (`number | undefined`) are `Option ℚ`; JavaScript
  truthiness of such a field (`if (x)`, `x ? a : b`, `x || d`) is `jsTruthy`:
  the value is present and nonzero.
* `Date.now()` is passed in explicitly as a `now : ℕ` parameter; random
  string ids are omitted (no logic reads them).
* The IndexedDB persistence calls (`saveToDB`/`loadFromDB`) and the
  `REAL_MONEY` Binance branch are external I/O; the engine is modelled in its
  default `SIMULATION` trading mode.  `savePortfolioState` keeps its only
  in-memory effect, stamping `lastUpdated`.
-/

set_option maxRecDepth 4000

namespace Bitrader

inductive Side where
  | LONG
  | SHORT
deriving DecidableEq, Inhabited

/-- The `side` field of a `Trade` record (`'BUY' | 'SELL'`). -/
inductive BS where
  | BUY
  | SELL
deriving DecidableEq

inductive MarketType where
  | SPOT
  | FUTURES
deriving DecidableEq, Inhabited

/-- The `action` string accepted by `executeOrder`
(`BUY, SELL, OPEN_LONG, OPEN_SHORT, CLOSE_LONG, CLOSE_SHORT`). -/
inductive OrderAction where
  | BUY
  | SELL
  | OPEN_LONG
  | OPEN_SHORT
  | CLOSE_LONG
  | CLOSE_SHORT
deriving DecidableEq

/-- `Math.max` on two numbers.  Agrees with `max` on `ℚ` but reduces well. -/
def jsMax (a b : ℚ) : ℚ := if a ≤ b then b else a

/-- `Math.min` on two numbers.  Agrees with `min` on `ℚ` but reduces well. -/
def jsMin (a b : ℚ) : ℚ := if b ≤ a then b else a

theorem jsMax_eq_max (a b : ℚ) : jsMax a b = max a b := by
  rw [max_def]; rfl

theorem jsMin_eq_min (a b : ℚ) : jsMin a b = min a b := by
  simp only [jsMin, min_def]
  split <;> split <;> first | rfl | linarith

/-- JavaScript truthiness of an optional number: defined and nonzero.
`undefined`, and `0`, are falsy. -/
def jsTruthy (o : Option ℚ) : Prop := o.getD 0 ≠ 0

instance (o : Option ℚ) : Decidable (jsTruthy o) :=
  inferInstanceAs (Decidable (o.getD 0 ≠ 0))

/-- JavaScript truthiness of an optional timestamp
(`portfolio.circuitBreakerTriggered`). -/
def jsTruthyNat (o : Option ℕ) : Prop := o.getD 0 ≠ 0

instance (o : Option ℕ) : Decidable (jsTruthyNat o) :=
  inferInstanceAs (Decidable (o.getD 0 ≠ 0))

/-- `Position` from `src/types.ts` (the random string `id` is omitted). -/
structure Position where
  symbol : String
  marketType : MarketType
  side : Side
  amount : ℚ
  entryPrice : ℚ
  currentPrice : ℚ
  leverage : ℚ
  marginUsed : Option ℚ := none
  liquidationPrice : Option ℚ := none
  unrealizedPnL : ℚ := 0
  pnlPercentage : ℚ := 0
  stopLoss : Option ℚ := none
  takeProfit : Option ℚ := none
  trailingStopPct : Option ℚ := none
  trailingStopTrigger : Option ℚ := none
  highestPriceSinceEntry : Option ℚ := none
deriving DecidableEq, Inhabited

/-- `Trade` from `src/types.ts` (the random string `id` is omitted). -/
structure Trade where
  symbol : String
  marketType : MarketType
  side : BS
  price : ℚ
  amount : ℚ
  cost : ℚ
  leverage : ℚ
  timestamp : ℕ
  pnl : Option ℚ := none
  reason : String
  strategyUsed : String
deriving DecidableEq

/-- `EquitySnapshot` from `src/types.ts`. -/
structure EquitySnapshot where
  time : ℕ
  equity : ℚ
  balance : ℚ
deriving DecidableEq

/-- `Portfolio` from `src/types.ts` (the constant `id: 1` is omitted). -/
structure Portfolio where
  balance : ℚ
  equity : ℚ
  spotPositions : List Position
  futuresPositions : List Position
  tradeHistory : List Trade
  equityHistory : List EquitySnapshot
  lastUpdated : ℕ := 0
  circuitBreakerTriggered : Option ℕ := none
deriving DecidableEq

/-- The module-level mutable state of `exchangeService.ts`:
the singleton `portfolio`, the global `currentPrice` and
`lastSnapshotTime`. -/
structure EngineState where
  portfolio : Portfolio
  currentPrice : ℚ
  lastSnapshotTime : ℕ := 0
deriving DecidableEq

/-- `MAX_CONSECUTIVE_LOSSES` constant. -/
def MAX_CONSECUTIVE_LOSSES : ℕ := 3

/-- `COOL_DOWN_PERIOD_MS` constant (one hour). -/
def COOL_DOWN_PERIOD_MS : ℤ := 60 * 60 * 1000

/-- `savePortfolioState`: the DB write is external; in memory it stamps
`lastUpdated`. -/
def savePortfolioState (now : ℕ) (pf : Portfolio) : Portfolio :=
  { pf with lastUpdated := now }

/-- `checkCircuitBreaker(pf)`: returns the updated portfolio together with the
remaining cool-down in milliseconds. -/
def checkCircuitBreaker (now : ℕ) (pf : Portfolio) : Portfolio × ℤ :=
  if jsTruthyNat pf.circuitBreakerTriggered then
    let timePassed : ℤ := (now : ℤ) - (pf.circuitBreakerTriggered.getD 0 : ℤ)
    if timePassed < COOL_DOWN_PERIOD_MS then
      (pf, COOL_DOWN_PERIOD_MS - timePassed)
    else
      (savePortfolioState now { pf with circuitBreakerTriggered := none }, 0)
  else
    let closedTrades := pf.tradeHistory.filter fun t => t.pnl.isSome
    if closedTrades.length < MAX_CONSECUTIVE_LOSSES then (pf, 0)
    else
      let recent := closedTrades.take MAX_CONSECUTIVE_LOSSES
      let allLosses := recent.all fun t => decide (t.pnl.getD 0 < 0)
      if allLosses then
        (savePortfolioState now
          { pf with circuitBreakerTriggered := some now }, COOL_DOWN_PERIOD_MS)
      else (pf, 0)

/-- `initPortfolio(initialBudget)` (the `savePortfolioState` call stamps
`lastUpdated`). -/
def initPortfolio (now : ℕ) (initialBudget : ℚ) : Portfolio :=
  savePortfolioState now
    { balance := initialBudget
      equity := initialBudget
      spotPositions := []
      futuresPositions := []
      tradeHistory := []
      equityHistory := [⟨now, initialBudget, initialBudget⟩]
      lastUpdated := now }

/-- The spot unrealized PnL formula of `calculateEquity`:
`currentVal - costBasis`. -/
def spotUPnL (price : ℚ) (pos : Position) : ℚ :=
  pos.amount * price - pos.amount * pos.entryPrice

/-- The futures unrealized PnL formula of `calculateEquity`:
`(currentPrice - entry) * amount * direction`. -/
def futuresUPnL (price : ℚ) (pos : Position) : ℚ :=
  (price - pos.entryPrice) * pos.amount * (if pos.side = Side.LONG then 1 else -1)

/-- The `newHigh` binding of `calculateEquity`'s spot branch:
`pos.highestPriceSinceEntry ? Math.max(high, currentPrice) : currentPrice`. -/
def spotNewHigh (price : ℚ) (pos : Position) : ℚ :=
  if jsTruthy pos.highestPriceSinceEntry then
    jsMax (pos.highestPriceSinceEntry.getD 0) price
  else price

/-- The `proposedTrigger` binding of the spot branch:
`newHigh * (1 - trailingStopPct / 100)`. -/
def spotProposedTrigger (price : ℚ) (pos : Position) : ℚ :=
  spotNewHigh price pos * (1 - pos.trailingStopPct.getD 0 / 100)

/-- The `newTrailingTrigger` computation of the spot branch: ratchet only
when the high-water mark moved up, and adopt the proposal only when it
tightens (or no truthy trigger is set yet). -/
def spotNewTrigger (price : ℚ) (pos : Position) : Option ℚ :=
  if jsTruthy pos.trailingStopPct ∧
      spotNewHigh price pos > pos.highestPriceSinceEntry.getD 0 then
    if ¬ jsTruthy pos.trailingStopTrigger ∨
        spotProposedTrigger price pos > pos.trailingStopTrigger.getD 0 then
      some (spotProposedTrigger price pos)
    else pos.trailingStopTrigger
  else pos.trailingStopTrigger

/-- The spot branch of `calculateEquity`'s `map` over `spotPositions`
(trailing-stop ratchet, long only; `costBasis = amount * entryPrice`). -/
def recomputeSpot (price : ℚ) (pos : Position) : Position :=
  { pos with
      currentPrice := price
      highestPriceSinceEntry := some (spotNewHigh price pos)
      trailingStopTrigger := spotNewTrigger price pos
      unrealizedPnL := spotUPnL price pos
      pnlPercentage :=
        if pos.amount * pos.entryPrice > 0 then
          spotUPnL price pos / (pos.amount * pos.entryPrice) * 100
        else 0 }

/-- The `base` value `pos.highestPriceSinceEntry || pos.entryPrice` of the
futures branch. -/
def futBase (pos : Position) : ℚ :=
  if jsTruthy pos.highestPriceSinceEntry then pos.highestPriceSinceEntry.getD 0
  else pos.entryPrice

/-- The `newHighOrLow` binding of the futures branch: highest high for
LONG, lowest low for SHORT. -/
def futNewHighOrLow (price : ℚ) (pos : Position) : ℚ :=
  if pos.side = Side.LONG then jsMax (futBase pos) price
  else jsMin (futBase pos) price

/-- The `newTrailingTrigger` computation of the futures branch: the
proposal is `newHighOrLow * (1 ∓ pct/100)` depending on side, adopted only
when it tightens (or no truthy trigger is set yet). -/
def futNewTrigger (price : ℚ) (pos : Position) : Option ℚ :=
  if jsTruthy pos.trailingStopPct then
    if pos.side = Side.LONG then
      if ¬ jsTruthy pos.trailingStopTrigger ∨
          futNewHighOrLow price pos * (1 - pos.trailingStopPct.getD 0 / 100)
            > pos.trailingStopTrigger.getD 0 then
        some (futNewHighOrLow price pos * (1 - pos.trailingStopPct.getD 0 / 100))
      else pos.trailingStopTrigger
    else
      if ¬ jsTruthy pos.trailingStopTrigger ∨
          futNewHighOrLow price pos * (1 + pos.trailingStopPct.getD 0 / 100)
            < pos.trailingStopTrigger.getD 0 then
        some (futNewHighOrLow price pos * (1 + pos.trailingStopPct.getD 0 / 100))
      else pos.trailingStopTrigger
  else pos.trailingStopTrigger

/-- The futures branch of `calculateEquity`'s `map` over `futuresPositions`
(high-water / low-water tracking; the ratchet direction depends on side;
`pnlPct = uPnL / marginUsed * 100`, 0 when margin is falsy). -/
def recomputeFutures (price : ℚ) (pos : Position) : Position :=
  { pos with
      currentPrice := price
      highestPriceSinceEntry := some (futNewHighOrLow price pos)
      trailingStopTrigger := futNewTrigger price pos
      unrealizedPnL := futuresUPnL price pos
      pnlPercentage :=
        if jsTruthy pos.marginUsed then
          futuresUPnL price pos / pos.marginUsed.getD 0 * 100
        else 0 }

/-- `calculateEquity()`: recomputes every spot and futures position at the
single global `currentPrice` and sets
`equity = balance + unrealizedTotal`, where `unrealizedTotal` accumulates the
per-position unrealized PnL formulas during the two maps. -/
def calculateEquity (price : ℚ) (pf : Portfolio) : Portfolio :=
  let unrealizedTotal :=
    (pf.spotPositions.map (spotUPnL price)).sum +
      (pf.futuresPositions.map (futuresUPnL price)).sum
  { pf with
      spotPositions := pf.spotPositions.map (recomputeSpot price)
      futuresPositions := pf.futuresPositions.map (recomputeFutures price)
      equity := pf.balance + unrealizedTotal }

/-- `captureEquitySnapshot()`: appends a snapshot, evicts the oldest past
1000 entries, and stamps `lastSnapshotTime`. -/
def captureEquitySnapshot (now : ℕ) (st : EngineState) : EngineState :=
  let hist := st.portfolio.equityHistory ++
    [⟨now, st.portfolio.equity, st.portfolio.balance⟩]
  let hist' := if hist.length > 1000 then hist.tail else hist
  { st with
      portfolio := { st.portfolio with equityHistory := hist' }
      lastSnapshotTime := now }

/-- `updateCurrentPrice(price)`: stores the new global price, recomputes
equity, and maybe takes a snapshot. -/
def updateCurrentPrice (now : ℕ) (price : ℚ) (st : EngineState) : EngineState :=
  let st' : EngineState :=
    { st with
        currentPrice := price
        portfolio := calculateEquity price st.portfolio }
  if (now : ℤ) - (st'.lastSnapshotTime : ℤ) > 60000 then
    captureEquitySnapshot now st'
  else st'

/-- `getPortfolio()`: recomputes equity and returns a copy of the portfolio;
modelled as the state after the recompute. -/
def getPortfolio (st : EngineState) : EngineState :=
  { st with portfolio := calculateEquity st.currentPrice st.portfolio }

/-- Action normalization in `executeOrder`: `side` starts as `'BUY'` and the
two `includes` checks set it; the six actions partition, so `side = SELL` iff
the action is `SELL`, `OPEN_SHORT` or `CLOSE_LONG`. -/
def normalizeSide (action : OrderAction) : BS :=
  match action with
  | .SELL => BS.SELL
  | .OPEN_SHORT => BS.SELL
  | .CLOSE_LONG => BS.SELL
  | _ => BS.BUY

/-- The futures-close block of `executeOrder` (also reached by the recursive
"Flip Position" call of the open block).  `existingIndex`/`existingPos` are
the result of the `findIndex` lookup, `side` is the normalized trade side of
the outer action.  Always succeeds once its guard held. -/
def executeFuturesClose (now : ℕ) (existingIndex : ℕ) (existingPos : Position)
    (amountPct : ℚ) (symbol reason strategyUsed : String) (side : BS)
    (st : EngineState) : EngineState × Trade :=
  let pf := st.portfolio
  let amountToClose := existingPos.amount * amountPct
  let direction : ℚ := if existingPos.side = Side.LONG then 1 else -1
  let pnl := (st.currentPrice - existingPos.entryPrice) * amountToClose * direction
  -- proportional margin release
  let marginReleased := existingPos.marginUsed.getD 0 * amountPct
  let updatedPos : Position :=
    { existingPos with
        amount := existingPos.amount - amountToClose
        marginUsed := some (existingPos.marginUsed.getD 0 - marginReleased) }
  let newFutures :=
    if updatedPos.amount * st.currentPrice < 10 then
      pf.futuresPositions.eraseIdx existingIndex
    else pf.futuresPositions.set existingIndex updatedPos
  let trade : Trade :=
    { symbol := symbol, marketType := MarketType.FUTURES, side := side
      price := st.currentPrice, amount := amountToClose, cost := marginReleased
      leverage := existingPos.leverage, timestamp := now, pnl := some pnl
      reason := reason, strategyUsed := strategyUsed }
  let pf' : Portfolio :=
    { pf with
        balance := pf.balance + (marginReleased + pnl)
        futuresPositions := newFutures
        tradeHistory := trade :: pf.tradeHistory }
  let st' := captureEquitySnapshot now { st with portfolio := pf' }
  let st'' :=
    { st' with portfolio := savePortfolioState now st'.portfolio }
  (st'', trade)

/-- `executeOrder(...)`, the central execution engine, in `SIMULATION` mode.
The recursive "Flip Position" call of the futures-open block is inlined as a
direct `executeFuturesClose` call: between the outer `findIndex` and the
recursive call no state changes, so the callee finds the same index and its
close guard holds (`amountPct = 1 > 0`, the current price is unchanged, and
the existing side is opposite to the target side). -/
def executeOrder (now : ℕ) (action : OrderAction) (amountPct : ℚ)
    (symbol : String) (reason : String) (stopLoss takeProfit : Option ℚ)
    (strategyUsed : String) (trailingStopPct : Option ℚ)
    (marketType : MarketType) (leverage : ℚ) (st : EngineState) :
    EngineState × Option Trade :=
  if amountPct ≤ 0 ∨ st.currentPrice = 0 then (st, none)
  else
    let side := normalizeSide action
    match marketType with
    | MarketType.FUTURES =>
      let fp := st.portfolio.futuresPositions
      let existingIndex := fp.findIdx fun p => p.symbol == symbol
      let existingPos? := fp[existingIndex]?
      -- CLOSING POSITIONS
      if existingPos?.isSome ∧
          ((action = OrderAction.CLOSE_LONG ∧
              (existingPos?.getD default).side = Side.LONG) ∨
            (action = OrderAction.CLOSE_SHORT ∧
              (existingPos?.getD default).side = Side.SHORT)) then
        let res := executeFuturesClose now existingIndex
          (existingPos?.getD default) amountPct symbol reason strategyUsed side st
        (res.1, some res.2)
      -- OPENING POSITIONS
      else if action = OrderAction.OPEN_LONG ∨ action = OrderAction.OPEN_SHORT then
        let targetSide :=
          if action = OrderAction.OPEN_LONG then Side.LONG else Side.SHORT
        -- if an opposing position exists, force close it first
        let st1 :=
          match existingPos? with
          | some ep =>
            if ep.side ≠ targetSide then
              (executeFuturesClose now existingIndex ep 1 symbol "Flip Position"
                "Auto"
                (if action = OrderAction.OPEN_LONG then BS.BUY else BS.SELL)
                st).1
            else st
          | none => st
        let budget := st1.portfolio.balance * amountPct
        let notionalValue := budget * leverage
        let amount := notionalValue / st.currentPrice
        if budget < 10 then (st1, none)
        else
          let liqPrice :=
            if action = OrderAction.OPEN_LONG then
              st.currentPrice * (1 - 1 / leverage + 1 / 100)
            else st.currentPrice * (1 + 1 / leverage - 1 / 100)
          let trailingTrigger : Option ℚ :=
            if jsTruthy trailingStopPct then
              some (if action = OrderAction.OPEN_LONG then
                  st.currentPrice * (1 - trailingStopPct.getD 0 / 100)
                else st.currentPrice * (1 + trailingStopPct.getD 0 / 100))
            else none
          let newPos : Position :=
            { symbol := symbol, marketType := MarketType.FUTURES
              side := targetSide, amount := amount
              entryPrice := st.currentPrice, currentPrice := st.currentPrice
              leverage := leverage, marginUsed := some budget
              liquidationPrice := some liqPrice
              unrealizedPnL := 0, pnlPercentage := 0
              stopLoss := stopLoss, takeProfit := takeProfit
              trailingStopPct := trailingStopPct
              trailingStopTrigger := trailingTrigger
              highestPriceSinceEntry := some st.currentPrice }
          let trade : Trade :=
            { symbol := symbol, marketType := MarketType.FUTURES, side := side
              price := st.currentPrice, amount := amount, cost := budget
              leverage := leverage, timestamp := now, pnl := none
              reason := reason, strategyUsed := strategyUsed }
          let pf' : Portfolio :=
            { st1.portfolio with
                balance := st1.portfolio.balance - budget
                futuresPositions := st1.portfolio.futuresPositions ++ [newPos]
                tradeHistory := trade :: st1.portfolio.tradeHistory }
          let st2 := captureEquitySnapshot now { st1 with portfolio := pf' }
          let st3 :=
            { st2 with portfolio := savePortfolioState now st2.portfolio }
          (st3, some trade)
      else (st, none)
    | MarketType.SPOT =>
      match side with
      | BS.BUY =>
        let budget := st.portfolio.balance * jsMin amountPct 1
        let amount := budget / st.currentPrice
        if budget < 10 then (st, none)
        else
          let trailingTrigger : Option ℚ :=
            if jsTruthy trailingStopPct then
              some (st.currentPrice * (1 - trailingStopPct.getD 0 / 100))
            else none
          let sp := st.portfolio.spotPositions
          let idx := sp.findIdx fun p => p.symbol == symbol
          let newSpot :=
            match sp[idx]? with
            | some existing =>
              let totalCost := existing.amount * existing.entryPrice + budget
              let newAmount := existing.amount + amount
              sp.set idx
                { existing with
                    amount := newAmount
                    entryPrice := totalCost / newAmount
                    stopLoss :=
                      if jsTruthy stopLoss then stopLoss else existing.stopLoss
                    takeProfit :=
                      if jsTruthy takeProfit then takeProfit
                      else existing.takeProfit
                    trailingStopPct :=
                      if jsTruthy trailingStopPct then trailingStopPct
                      else existing.trailingStopPct }
            | none =>
              sp ++
                [{ symbol := symbol, marketType := MarketType.SPOT
                   side := Side.LONG, amount := amount
                   entryPrice := st.currentPrice
                   currentPrice := st.currentPrice, leverage := 1
                   unrealizedPnL := 0, pnlPercentage := 0
                   stopLoss := stopLoss, takeProfit := takeProfit
                   highestPriceSinceEntry := some st.currentPrice
                   trailingStopTrigger := trailingTrigger
                   trailingStopPct := trailingStopPct }]
          let trade : Trade :=
            { symbol := symbol, marketType := MarketType.SPOT, side := BS.BUY
              price := st.currentPrice, amount := amount, cost := budget
              leverage := 1, timestamp := now, pnl := none
              reason := reason, strategyUsed := strategyUsed }
          let pf' : Portfolio :=
            { st.portfolio with
                balance := st.portfolio.balance - budget
                spotPositions := newSpot
                tradeHistory := trade :: st.portfolio.tradeHistory }
          let st' := captureEquitySnapshot now { st with portfolio := pf' }
          let st'' :=
            { st' with portfolio := savePortfolioState now st'.portfolio }
          (st'', some trade)
      | BS.SELL =>
        let sp := st.portfolio.spotPositions
        let idx := sp.findIdx fun p => p.symbol == symbol
        match sp[idx]? with
        | none => (st, none)
        | some pos =>
          let amountToSell := pos.amount * amountPct
          let revenue := amountToSell * st.currentPrice
          let costBasis := amountToSell * pos.entryPrice
          let pnl := revenue - costBasis
          let updatedPos := { pos with amount := pos.amount - amountToSell }
          let newSpot :=
            if updatedPos.amount * st.currentPrice < 5 then sp.eraseIdx idx
            else sp.set idx updatedPos
          let trade : Trade :=
            { symbol := symbol, marketType := MarketType.SPOT, side := BS.SELL
              price := st.currentPrice, amount := amountToSell, cost := revenue
              leverage := 1, timestamp := now, pnl := some pnl
              reason := reason, strategyUsed := strategyUsed }
          let pf' : Portfolio :=
            { st.portfolio with
                balance := st.portfolio.balance + revenue
                spotPositions := newSpot
                tradeHistory := trade :: st.portfolio.tradeHistory }
          let st' := captureEquitySnapshot now { st with portfolio := pf' }
          let st'' :=
            { st' with portfolio := savePortfolioState now st'.portfolio }
          (st'', some trade)

/-- The per-spot-position trigger chain of `checkTradeTriggers`: stop-loss,
then take-profit, then trailing stop; returns the reason of the first hit. -/
def spotTriggerHit (price : ℚ) (pos : Position) : Option String :=
  if jsTruthy pos.stopLoss ∧ price ≤ pos.stopLoss.getD 0 then some "Spot SL"
  else if jsTruthy pos.takeProfit ∧ price ≥ pos.takeProfit.getD 0 then
    some "Spot TP"
  else if jsTruthy pos.trailingStopTrigger ∧
      price ≤ pos.trailingStopTrigger.getD 0 then
    some "Spot Trailing"
  else none

/-- The per-futures-position trigger chain of `checkTradeTriggers`:
liquidation, then stop-loss, then take-profit, then trailing stop. -/
def futuresTriggerHit (price : ℚ) (pos : Position) : Option String :=
  let isLong := pos.side = Side.LONG
  if jsTruthy pos.liquidationPrice ∧
      (if isLong then price ≤ pos.liquidationPrice.getD 0
        else price ≥ pos.liquidationPrice.getD 0) then
    some "LIQUIDATION"
  else if jsTruthy pos.stopLoss ∧
      (if isLong then price ≤ pos.stopLoss.getD 0
        else price ≥ pos.stopLoss.getD 0) then
    some "Futures SL"
  else if jsTruthy pos.takeProfit ∧
      (if isLong then price ≥ pos.takeProfit.getD 0
        else price ≤ pos.takeProfit.getD 0) then
    some "Futures TP"
  else if jsTruthy pos.trailingStopTrigger ∧
      (if isLong then price ≤ pos.trailingStopTrigger.getD 0
        else price ≥ pos.trailingStopTrigger.getD 0) then
    some "Futures Trailing"
  else none

/-- `checkTradeTriggers()`: recomputes equity, then scans the (recomputed)
spot positions and then the futures positions in order and fires
`executeOrder` for the first position whose trigger chain hits; the trigger
calls pass literal `0` for the stop-loss/take-profit/trailing parameters. -/
def checkTradeTriggers (now : ℕ) (st : EngineState) : EngineState × Option Trade :=
  if st.currentPrice = 0 then (st, none)
  else
    let st' : EngineState :=
      { st with portfolio := calculateEquity st.currentPrice st.portfolio }
    match st'.portfolio.spotPositions.find?
        (fun p => (spotTriggerHit st'.currentPrice p).isSome) with
    | some pos =>
      executeOrder now OrderAction.SELL 1 pos.symbol
        ((spotTriggerHit st'.currentPrice pos).getD "") (some 0) (some 0)
        "Risk" (some 0) MarketType.SPOT 1 st'
    | none =>
      match st'.portfolio.futuresPositions.find?
          (fun p => (futuresTriggerHit st'.currentPrice p).isSome) with
      | some pos =>
        let triggerAction :=
          if pos.side = Side.LONG then OrderAction.CLOSE_LONG
          else OrderAction.CLOSE_SHORT
        executeOrder now triggerAction 1 pos.symbol
          ((futuresTriggerHit st'.currentPrice pos).getD "") (some 0) (some 0)
          "Risk" (some 0) MarketType.FUTURES pos.leverage st'
      | none => (st', none)

/-! ## Derived notions used by the claims -/

/-- Sum of the stored `unrealizedPnL` fields over all spot and futures
positions. -/
def totalUnrealizedPnL (pf : Portfolio) : ℚ :=
  (pf.spotPositions.map Position.unrealizedPnL).sum +
    (pf.futuresPositions.map Position.unrealizedPnL).sum

/-- The equity identity of the specification:
`equity == balance + Σ unrealizedPnL(all positions)`. -/
def equityIdentity (pf : Portfolio) : Prop :=
  pf.equity = pf.balance + totalUnrealizedPnL pf

instance (pf : Portfolio) : Decidable (equityIdentity pf) :=
  inferInstanceAs (Decidable (_ = _))

/-! ## Field-preservation lemmas for the recompute functions -/

theorem recomputeSpot_unrealizedPnL (price : ℚ) (pos : Position) :
    (recomputeSpot price pos).unrealizedPnL = spotUPnL price pos := rfl

theorem recomputeFutures_unrealizedPnL (price : ℚ) (pos : Position) :
    (recomputeFutures price pos).unrealizedPnL = futuresUPnL price pos := rfl

theorem recomputeSpot_amount (price : ℚ) (pos : Position) :
    (recomputeSpot price pos).amount = pos.amount := rfl

theorem recomputeSpot_entryPrice (price : ℚ) (pos : Position) :
    (recomputeSpot price pos).entryPrice = pos.entryPrice := rfl

theorem recomputeFutures_amount (price : ℚ) (pos : Position) :
    (recomputeFutures price pos).amount = pos.amount := rfl

theorem recomputeFutures_entryPrice (price : ℚ) (pos : Position) :
    (recomputeFutures price pos).entryPrice = pos.entryPrice := rfl

theorem recomputeFutures_side (price : ℚ) (pos : Position) :
    (recomputeFutures price pos).side = pos.side := rfl

theorem captureEquitySnapshot_portfolio_balance (now : ℕ) (st : EngineState) :
    (captureEquitySnapshot now st).portfolio.balance = st.portfolio.balance := rfl

theorem captureEquitySnapshot_portfolio_equity (now : ℕ) (st : EngineState) :
    (captureEquitySnapshot now st).portfolio.equity = st.portfolio.equity := rfl

theorem captureEquitySnapshot_portfolio_spotPositions (now : ℕ)
    (st : EngineState) :
    (captureEquitySnapshot now st).portfolio.spotPositions =
      st.portfolio.spotPositions := rfl

theorem captureEquitySnapshot_portfolio_futuresPositions (now : ℕ)
    (st : EngineState) :
    (captureEquitySnapshot now st).portfolio.futuresPositions =
      st.portfolio.futuresPositions := rfl

theorem recomputeSpot_currentPrice (price : ℚ) (pos : Position) :
    (recomputeSpot price pos).currentPrice = price := rfl

theorem recomputeFutures_currentPrice (price : ℚ) (pos : Position) :
    (recomputeFutures price pos).currentPrice = price := rfl

/-- After `calculateEquity`, the equity identity holds: the accumulated
`unrealizedTotal` coincides with the sum of the freshly stored
`unrealizedPnL` fields. -/
theorem equityIdentity_calculateEquity (price : ℚ) (pf : Portfolio) :
    equityIdentity (calculateEquity price pf) := by
  unfold equityIdentity calculateEquity totalUnrealizedPnL
  simp [List.map_map, Function.comp_def, recomputeSpot_unrealizedPnL,
    recomputeFutures_unrealizedPnL]

theorem equityIdentity_captureEquitySnapshot (now : ℕ) (st : EngineState) :
    equityIdentity (captureEquitySnapshot now st).portfolio ↔
      equityIdentity st.portfolio := by
  simp [equityIdentity, totalUnrealizedPnL, captureEquitySnapshot]

/-- A concrete base state shared by the concrete-run theorems: a freshly
initialized 10000-cash portfolio after one tick at price 100. -/
def sampleState : EngineState :=
  updateCurrentPrice 0 100
    { portfolio := initPortfolio 0 10000, currentPrice := 0 }

/-! ## C1 — equity identity -/

/-- C1, counterexample.  A successful `executeOrder` (here an `OPEN_LONG`
futures open of 10% at leverage 2 from the fresh 10000-cash state) does
*not* re-establish `equity == balance + Σ unrealizedPnL`: the open debits
1000 of margin from the balance but leaves `equity` at its stale value
10000, while the new position's unrealized PnL is 0. -/
theorem C1_counterexample :
    ¬ equityIdentity
      ((executeOrder 0 OrderAction.OPEN_LONG (1/10) "BTCUSDT" "entry" none
          none "Manual" none MarketType.FUTURES 2 sampleState).1.portfolio) := by
  with_unfolding_all decide

/-- C1 (amended): the equity identity
`equity == balance + Σ unrealizedPnL(all positions)` holds immediately after
every equity recomputation — after `calculateEquity`, hence after
`updateCurrentPrice` and `getPortfolio` — but `executeOrder` does not
recompute equity, so immediately after a successful execution the stored
equity is stale until the next recompute. -/
theorem C1_equityIdentity_after_recompute (price : ℚ) (pf : Portfolio)
    (now : ℕ) (st : EngineState) :
    equityIdentity (calculateEquity price pf) ∧
    equityIdentity (updateCurrentPrice now price st).portfolio ∧
    equityIdentity (getPortfolio st).portfolio := by
  refine ⟨equityIdentity_calculateEquity .., ?_,
    equityIdentity_calculateEquity ..⟩
  unfold updateCurrentPrice
  dsimp only
  split
  · rw [equityIdentity_captureEquitySnapshot]
    exact equityIdentity_calculateEquity ..
  · exact equityIdentity_calculateEquity ..

/-! ## C3 — a tick's recompute is not framed to the tick's symbol -/

/-- A spot position on `ETHUSDT` used to exhibit the missing symbol frame. -/
def ethPosition : Position :=
  { symbol := "ETHUSDT", marketType := MarketType.SPOT, side := Side.LONG
    amount := 5, entryPrice := 100, currentPrice := 100, leverage := 1 }

/-- C3, counterexample.  `updateCurrentPrice` takes no symbol at all: a tick
carrying price 200 (in the running system this is the active stream symbol,
e.g. `BTCUSDT`) rewrites the open `ETHUSDT` position — its `currentPrice`
becomes 200 and its unrealized PnL jumps from 0 to 500 — so positions on
other symbols are *not* left unchanged. -/
theorem C3_counterexample :
    ((updateCurrentPrice 0 200
        { portfolio :=
            { balance := 1000, equity := 1000, spotPositions := [ethPosition]
              futuresPositions := [], tradeHistory := [], equityHistory := [] }
          currentPrice := 100 }).portfolio.spotPositions.map
        Position.unrealizedPnL) = [500] ∧
      ethPosition.unrealizedPnL = 0 ∧ ethPosition.symbol ≠ "BTCUSDT" := by
  with_unfolding_all decide

/-- C3 (amended): a price recompute applies the single global current price
to *every* open position, regardless of symbol: after `updateCurrentPrice`
with price `p`, every spot and futures position carries
`currentPrice = p` (and its PnL fields are recomputed against `p`). -/
theorem C3_recompute_touches_all_positions (now : ℕ) (price : ℚ)
    (st : EngineState) :
    (∀ p ∈ (updateCurrentPrice now price st).portfolio.spotPositions,
        p.currentPrice = price) ∧
    (∀ p ∈ (updateCurrentPrice now price st).portfolio.futuresPositions,
        p.currentPrice = price) := by
  have hs : (updateCurrentPrice now price st).portfolio.spotPositions =
      st.portfolio.spotPositions.map (recomputeSpot price) := by
    unfold updateCurrentPrice
    dsimp only
    split <;> simp [captureEquitySnapshot, calculateEquity]
  have hf : (updateCurrentPrice now price st).portfolio.futuresPositions =
      st.portfolio.futuresPositions.map (recomputeFutures price) := by
    unfold updateCurrentPrice
    dsimp only
    split <;> simp [captureEquitySnapshot, calculateEquity]
  constructor
  · intro p hp
    rw [hs] at hp
    obtain ⟨q, -, rfl⟩ := List.mem_map.mp hp
    exact recomputeSpot_currentPrice ..
  · intro p hp
    rw [hf] at hp
    obtain ⟨q, -, rfl⟩ := List.mem_map.mp hp
    exact recomputeFutures_currentPrice ..

/-- Closed witness for `C3_recompute_touches_all_positions` at the concrete
`ethPosition` state. -/
theorem C3_recompute_touches_all_positions_witness :
    ∀ p ∈ (updateCurrentPrice 0 200
        { portfolio :=
            { balance := 1000, equity := 1000, spotPositions := [ethPosition]
              futuresPositions := [], tradeHistory := [], equityHistory := [] }
          currentPrice := 100 }).portfolio.spotPositions,
      p.currentPrice = 200 :=
  (C3_recompute_touches_all_positions 0 200
    { portfolio :=
        { balance := 1000, equity := 1000, spotPositions := [ethPosition]
          futuresPositions := [], tradeHistory := [], equityHistory := [] }
      currentPrice := 100 }).1

/-! ## C10 — futures opens commit `balance * amountFraction` uncapped -/

/-- C10: a FUTURES open with `amountFraction = 2 > 1` succeeds (budget
`20000 ≥ 10` is the only floor checked) and drives the cash balance to
`-10000` (stated additively: balance + 10000 = 0, and balance < 0), while
the SPOT buy path caps the spent fraction at 1, spending exactly the full
balance for the same `amountFraction = 2`. -/
theorem C10_futures_open_uncapped :
    ((executeOrder 0 OrderAction.OPEN_LONG 2 "BTCUSDT" "entry" none none
        "Manual" none MarketType.FUTURES 1 sampleState).2.isSome ∧
      (executeOrder 0 OrderAction.OPEN_LONG 2 "BTCUSDT" "entry" none none
        "Manual" none MarketType.FUTURES 1 sampleState).1.portfolio.balance
        + 10000 = 0 ∧
      (executeOrder 0 OrderAction.OPEN_LONG 2 "BTCUSDT" "entry" none none
        "Manual" none MarketType.FUTURES 1 sampleState).1.portfolio.balance
        < 0) ∧
    ((executeOrder 0 OrderAction.BUY 2 "BTCUSDT" "entry" none none
        "Manual" none MarketType.SPOT 1 sampleState).2.isSome ∧
      (executeOrder 0 OrderAction.BUY 2 "BTCUSDT" "entry" none none
        "Manual" none MarketType.SPOT 1 sampleState).1.portfolio.balance
        = 0) := by
  with_unfolding_all decide

/-! ## C4 — leverage is not clamped -/

/-- C4, counterexample.  `executeOrder` applies no leverage clamp: an
`OPEN_LONG` futures open with `leverage = 10` creates a position whose
stored leverage is 10, outside `[1,3]`. -/
theorem C4_counterexample :
    ((executeOrder 0 OrderAction.OPEN_LONG (1/10) "BTCUSDT" "entry" none none
        "Manual" none MarketType.FUTURES 10
        sampleState).1.portfolio.futuresPositions.map Position.leverage)
      = [10] ∧ ¬ ((10 : ℚ) ≤ 3) := by
  with_unfolding_all decide

/-- C4 (amended): `executeOrder` performs no leverage clamping at all — a
FUTURES open (`OPEN_LONG` or `OPEN_SHORT`, here on an empty book) records
the `leverage` argument unchanged on both the new position and the trade,
whatever its value; the SPOT buy path hard-codes leverage 1 on the created
position and trade (even when called with a different `leverage`
argument). -/
theorem C4_no_leverage_clamp (now : ℕ) (action : OrderAction)
    (amountPct lev : ℚ) (symbol reason strategy : String)
    (sl tp tpct : Option ℚ) (st : EngineState)
    (ha : action = OrderAction.OPEN_LONG ∨ action = OrderAction.OPEN_SHORT)
    (hpct : ¬ amountPct ≤ 0) (hpr : ¬ st.currentPrice = 0)
    (hemptyF : st.portfolio.futuresPositions = [])
    (hemptyS : st.portfolio.spotPositions = [])
    (hbud : ¬ st.portfolio.balance * amountPct < 10)
    (hbudS : ¬ st.portfolio.balance * jsMin amountPct 1 < 10) :
    ((executeOrder now action amountPct symbol reason sl tp strategy tpct
        MarketType.FUTURES lev st).1.portfolio.futuresPositions.map
        Position.leverage = [lev] ∧
      Option.map Trade.leverage (executeOrder now action amountPct symbol
        reason sl tp strategy tpct MarketType.FUTURES lev st).2 = some lev) ∧
    ((executeOrder now OrderAction.BUY amountPct symbol reason sl tp strategy
        tpct MarketType.SPOT lev st).1.portfolio.spotPositions.map
        Position.leverage = [1] ∧
      Option.map Trade.leverage (executeOrder now OrderAction.BUY amountPct
        symbol reason sl tp strategy tpct MarketType.SPOT lev st).2
        = some 1) := by
  refine ⟨?_, ?_⟩
  · rcases ha with rfl | rfl <;>
    · unfold executeOrder
      simp [hemptyF, hpct, hpr, hbud, captureEquitySnapshot,
        savePortfolioState, normalizeSide]
  · unfold executeOrder
    simp [hemptyS, hpct, hpr, hbudS, captureEquitySnapshot,
      savePortfolioState, normalizeSide]

/-- Closed witness for `C4_no_leverage_clamp`: leverage 10 survives
unclamped from the fresh sample state. -/
theorem C4_no_leverage_clamp_witness :
    ((executeOrder 0 OrderAction.OPEN_LONG (1/2) "BTCUSDT" "entry" none none
        "Manual" none MarketType.FUTURES 10
        sampleState).1.portfolio.futuresPositions.map Position.leverage
        = [10] ∧
      Option.map Trade.leverage (executeOrder 0 OrderAction.OPEN_LONG (1/2)
        "BTCUSDT" "entry" none none "Manual" none MarketType.FUTURES 10
        sampleState).2 = some 10) ∧
    ((executeOrder 0 OrderAction.BUY (1/2) "BTCUSDT" "entry" none none
        "Manual" none MarketType.SPOT 10
        sampleState).1.portfolio.spotPositions.map Position.leverage
        = [1] ∧
      Option.map Trade.leverage (executeOrder 0 OrderAction.BUY (1/2)
        "BTCUSDT" "entry" none none "Manual" none MarketType.SPOT 10
        sampleState).2 = some 1) :=
  C4_no_leverage_clamp 0 OrderAction.OPEN_LONG (1/2) 10 "BTCUSDT" "entry"
    "Manual" none none none sampleState (Or.inl rfl)
    (by with_unfolding_all decide) (by with_unfolding_all decide)
    (by with_unfolding_all decide) (by with_unfolding_all decide)
    (by with_unfolding_all decide) (by with_unfolding_all decide)

/-! ## C2 — the SPOT buy/sell scenario -/

/-- The scenario's buy step: from the fresh 10000-cash state at price 100,
`BUY` with `amountFraction = 0.5`. -/
def c2buy : EngineState × Option Trade :=
  executeOrder 0 OrderAction.BUY (1/2) "BTCUSDT" "entry" none none "Manual"
    none MarketType.SPOT 1 sampleState

/-- The scenario's price move to 120 with its recompute. -/
def c2mid : EngineState := updateCurrentPrice 0 120 c2buy.1

/-- The scenario's sell step: `SELL` with `amountFraction = 1.0` at 120. -/
def c2sell : EngineState × Option Trade :=
  executeOrder 0 OrderAction.SELL 1 "BTCUSDT" "exit" none none "Manual"
    none MarketType.SPOT 1 c2mid

/-- The recompute after the sell (`getPortfolio`). -/
def c2final : EngineState := getPortfolio c2sell.1

/-- C2, counterexample.  After the buy and the recompute at price 120 the
portfolio's equity is 6000, not the claimed 11000: `calculateEquity` sets
`equity = balance + Σ unrealizedPnL` (5000 + 1000) — the spot position's
cost basis is not part of the code's equity. -/
theorem C2_counterexample :
    c2mid.portfolio.equity = 6000 ∧ c2mid.portfolio.equity ≠ 11000 := by
  have h : c2mid.portfolio.equity = 6000 := by with_unfolding_all rfl
  refine ⟨h, ?_⟩
  rw [h]
  norm_num

/-- C2 (amended): the scenario as the code actually computes it.  The buy
spends 5000 for 50 coins at entry 100 leaving cash 5000; after the move to
120 and a recompute the position's unrealized PnL is 1000 but equity is
6000 (= cash 5000 + PnL 1000); the sell records realized pnl 1000, leaves
cash 11000 and removes the position, while the stored equity stays at its
stale 6000 until the next recompute, which yields equity 11000. -/
theorem C2_spot_scenario :
    Option.map Trade.cost c2buy.2 = some 5000 ∧
    Option.map Trade.amount c2buy.2 = some 50 ∧
    c2buy.1.portfolio.balance = 5000 ∧
    c2buy.1.portfolio.spotPositions.map Position.amount = [50] ∧
    c2buy.1.portfolio.spotPositions.map Position.entryPrice = [100] ∧
    c2mid.portfolio.spotPositions.map Position.unrealizedPnL = [1000] ∧
    c2mid.portfolio.equity = 6000 ∧
    Option.map Trade.pnl c2sell.2 = some (some 1000) ∧
    c2sell.1.portfolio.balance = 11000 ∧
    c2sell.1.portfolio.spotPositions = [] ∧
    c2sell.1.portfolio.equity = 6000 ∧
    c2final.portfolio.equity = 11000 :=
  ⟨by with_unfolding_all rfl, by with_unfolding_all rfl,
   by with_unfolding_all rfl, by with_unfolding_all rfl,
   by with_unfolding_all rfl, by with_unfolding_all rfl,
   by with_unfolding_all rfl, by with_unfolding_all rfl,
   by with_unfolding_all rfl, by with_unfolding_all rfl,
   by with_unfolding_all rfl, by with_unfolding_all rfl⟩

/-! ## C8 — circuit breaker -/

/-- C8: with the breaker inactive and the three most recent closed trades
(`pnl` defined, most recent first) all losses `[-10,-5,-3]`,
`checkCircuitBreaker` records the trigger time (and stamps `lastUpdated`
via `savePortfolioState`) and returns the full one-hour cool-down, leaving
`tradeHistory` untouched; with `[+1,-5,-3]` it returns 0 and changes
nothing. -/
theorem C8_checkCircuitBreaker (now : ℕ) (pf₁ pf₂ : Portfolio)
    (t₁ t₂ t₃ : Trade) (rest₁ : List Trade)
    (s₁ s₂ s₃ : Trade) (rest₂ : List Trade)
    (h₁ : pf₁.circuitBreakerTriggered = none)
    (hf₁ : pf₁.tradeHistory.filter (fun t => t.pnl.isSome)
      = t₁ :: t₂ :: t₃ :: rest₁)
    (hp₁ : t₁.pnl.getD 0 = -10) (hp₂ : t₂.pnl.getD 0 = -5)
    (hp₃ : t₃.pnl.getD 0 = -3)
    (h₂ : pf₂.circuitBreakerTriggered = none)
    (hf₂ : pf₂.tradeHistory.filter (fun t => t.pnl.isSome)
      = s₁ :: s₂ :: s₃ :: rest₂)
    (hq₁ : s₁.pnl.getD 0 = 1) :
    checkCircuitBreaker now pf₁ =
      ({ pf₁ with circuitBreakerTriggered := some now, lastUpdated := now },
        COOL_DOWN_PERIOD_MS) ∧
    (checkCircuitBreaker now pf₁).1.tradeHistory = pf₁.tradeHistory ∧
    checkCircuitBreaker now pf₂ = (pf₂, 0) := by
  have l₁ : t₁.pnl.getD 0 < 0 := by rw [hp₁]; norm_num
  have l₂ : t₂.pnl.getD 0 < 0 := by rw [hp₂]; norm_num
  have l₃ : t₃.pnl.getD 0 < 0 := by rw [hp₃]; norm_num
  have n₁ : ¬ s₁.pnl.getD 0 < 0 := by rw [hq₁]; norm_num
  have e₁ : checkCircuitBreaker now pf₁ =
      ({ pf₁ with circuitBreakerTriggered := some now, lastUpdated := now },
        COOL_DOWN_PERIOD_MS) := by
    unfold checkCircuitBreaker
    rw [if_neg (by simp [jsTruthyNat, h₁])]
    simp only [hf₁, MAX_CONSECUTIVE_LOSSES]
    rw [if_neg (by simp)]
    rw [if_pos (by simp [List.all_cons, l₁, l₂, l₃])]
    rfl
  refine ⟨e₁, by rw [e₁], ?_⟩
  unfold checkCircuitBreaker
  rw [if_neg (by simp [jsTruthyNat, h₂])]
  simp only [hf₂, MAX_CONSECUTIVE_LOSSES]
  rw [if_neg (by simp)]
  rw [if_neg (by simp [List.all_cons, n₁])]

/-- A closed sample trade with a given realized pnl, for the circuit-breaker
witness. -/
def closedTrade (v : ℚ) : Trade :=
  { symbol := "BTCUSDT", marketType := MarketType.SPOT, side := BS.SELL
    price := 100, amount := 1, cost := 100, leverage := 1, timestamp := 0
    pnl := some v, reason := "exit", strategyUsed := "Manual" }

/-- A portfolio whose trade history consists of the given closed pnls
(most recent first), breaker inactive. -/
def cbPortfolio (pnls : List ℚ) : Portfolio :=
  { balance := 1000, equity := 1000, spotPositions := []
    futuresPositions := [], tradeHistory := pnls.map closedTrade
    equityHistory := [] }

/-- Closed witness for `C8_checkCircuitBreaker` on the histories
`[-10,-5,-3]` and `[+1,-5,-3]`. -/
theorem C8_checkCircuitBreaker_witness :
    checkCircuitBreaker 7 (cbPortfolio [-10, -5, -3]) =
      ({ cbPortfolio [-10, -5, -3] with
          circuitBreakerTriggered := some 7, lastUpdated := 7 },
        COOL_DOWN_PERIOD_MS) ∧
    (checkCircuitBreaker 7 (cbPortfolio [-10, -5, -3])).1.tradeHistory =
      (cbPortfolio [-10, -5, -3]).tradeHistory ∧
    checkCircuitBreaker 7 (cbPortfolio [1, -5, -3]) =
      (cbPortfolio [1, -5, -3], 0) :=
  C8_checkCircuitBreaker 7 (cbPortfolio [-10, -5, -3])
    (cbPortfolio [1, -5, -3]) (closedTrade (-10)) (closedTrade (-5))
    (closedTrade (-3)) [] (closedTrade 1) (closedTrade (-5))
    (closedTrade (-3)) [] rfl (by with_unfolding_all rfl) rfl rfl rfl rfl
    (by with_unfolding_all rfl) rfl

/-! ## C6 — trailing-stop ratchet monotonicity -/

/-- C6: one recompute step never loosens a set trailing trigger.  For a
LONG futures position with trigger `some vl` (`vl ≠ 0`; a zero trigger is
JavaScript-falsy, i.e. "unset"), the recomputed trigger is `some w` with
`vl ≤ w`; for a SHORT futures position the trigger can only fall; the spot
(long-only) ratchet likewise only rises.  In particular a recompute at a
less favorable price leaves the trigger untouched.  Chaining this step
gives monotonicity across any sequence of recompute calls. -/
theorem C6_trailing_ratchet (price : ℚ) (pl ps : Position) (vl vs : ℚ)
    (hl : pl.side = Side.LONG)
    (hvl : pl.trailingStopTrigger = some vl) (hvl0 : vl ≠ 0)
    (hs : ps.side = Side.SHORT)
    (hvs : ps.trailingStopTrigger = some vs) (hvs0 : vs ≠ 0) :
    (∃ w, (recomputeFutures price pl).trailingStopTrigger = some w ∧ vl ≤ w) ∧
    (∃ w, (recomputeFutures price ps).trailingStopTrigger = some w ∧ w ≤ vs) ∧
    (∃ w, (recomputeSpot price pl).trailingStopTrigger = some w ∧ vl ≤ w) := by
  refine ⟨?_, ?_, ?_⟩
  · unfold recomputeFutures futNewTrigger
    simp only [hl, hvl, jsTruthy, Option.getD_some]
    split_ifs <;> simp_all <;> linarith
  · unfold recomputeFutures futNewTrigger
    simp only [hs, hvs, jsTruthy, Option.getD_some]
    split_ifs <;> simp_all <;> linarith
  · unfold recomputeSpot spotNewTrigger
    simp only [hvl, jsTruthy, Option.getD_some]
    split_ifs <;> simp_all <;> linarith

/-- A LONG futures position with a 5% trailing stop armed at 95. -/
def c6Long : Position :=
  { symbol := "BTCUSDT", marketType := MarketType.FUTURES, side := Side.LONG
    amount := 1, entryPrice := 100, currentPrice := 100, leverage := 2
    marginUsed := some 50, trailingStopPct := some 5
    trailingStopTrigger := some 95, highestPriceSinceEntry := some 100 }

/-- A SHORT futures position with a 5% trailing stop armed at 105. -/
def c6Short : Position :=
  { symbol := "BTCUSDT", marketType := MarketType.FUTURES, side := Side.SHORT
    amount := 1, entryPrice := 100, currentPrice := 100, leverage := 2
    marginUsed := some 50, trailingStopPct := some 5
    trailingStopTrigger := some 105, highestPriceSinceEntry := some 100 }

/-- Closed witness for `C6_trailing_ratchet` at price 90 (less favorable
for the LONG, favorable for the SHORT). -/
theorem C6_trailing_ratchet_witness :
    (∃ w, (recomputeFutures 90 c6Long).trailingStopTrigger = some w ∧
      (95 : ℚ) ≤ w) ∧
    (∃ w, (recomputeFutures 90 c6Short).trailingStopTrigger = some w ∧
      w ≤ (105 : ℚ)) ∧
    (∃ w, (recomputeSpot 90 c6Long).trailingStopTrigger = some w ∧
      (95 : ℚ) ≤ w) :=
  C6_trailing_ratchet 90 c6Long c6Short 95 105 rfl rfl
    (by norm_num) rfl rfl (by norm_num)


/-! ## C9 — recompute idempotence -/

theorem le_jsMax_right (a b : ℚ) : b ≤ jsMax a b := by
  unfold jsMax; split <;> linarith

theorem jsMax_eq_left {a b : ℚ} (h : b ≤ a) : jsMax a b = a := by
  unfold jsMax
  split_ifs with h'
  · exact (le_antisymm h' h).symm
  · rfl

theorem jsMin_le_right (a b : ℚ) : jsMin a b ≤ b := by
  unfold jsMin; split <;> linarith

theorem jsMin_eq_left {a b : ℚ} (h : a ≤ b) : jsMin a b = a := by
  unfold jsMin
  split_ifs with h'
  · exact le_antisymm h' h
  · rfl

theorem jsMin_pos {a b : ℚ} (ha : 0 < a) (hb : 0 < b) : 0 < jsMin a b := by
  unfold jsMin; split <;> assumption

theorem le_spotNewHigh (price : ℚ) (pos : Position) :
    price ≤ spotNewHigh price pos := by
  unfold spotNewHigh
  split
  · exact le_jsMax_right ..
  · exact le_refl _

theorem spotNewHigh_idem (price : ℚ) (pos : Position) (hp : 0 < price) :
    spotNewHigh price (recomputeSpot price pos) = spotNewHigh price pos := by
  have h1 := le_spotNewHigh price pos
  have ht : jsTruthy (some (spotNewHigh price pos)) := by
    simp only [jsTruthy, Option.getD_some]
    intro h0
    rw [h0] at h1
    linarith
  conv_lhs => unfold spotNewHigh
  simp only [recomputeSpot, ht, if_pos, Option.getD_some]
  exact jsMax_eq_left h1

theorem spotNewTrigger_idem (price : ℚ) (pos : Position) (hp : 0 < price) :
    spotNewTrigger price (recomputeSpot price pos) = spotNewTrigger price pos := by
  conv_lhs => unfold spotNewTrigger
  rw [if_neg]
  · rfl
  · rintro ⟨-, h⟩
    rw [spotNewHigh_idem price pos hp] at h
    simp only [recomputeSpot, Option.getD_some] at h
    exact lt_irrefl _ h

theorem spotUPnL_recomputeSpot (price : ℚ) (pos : Position) :
    spotUPnL price (recomputeSpot price pos) = spotUPnL price pos := rfl

theorem recomputeSpot_idem (price : ℚ) (pos : Position) (hp : 0 < price) :
    recomputeSpot price (recomputeSpot price pos) = recomputeSpot price pos := by
  have hh := spotNewHigh_idem price pos hp
  have ht := spotNewTrigger_idem price pos hp
  rw [recomputeSpot, hh, ht]
  rfl

theorem recomputeFutures_trailingStopPct (price : ℚ) (pos : Position) :
    (recomputeFutures price pos).trailingStopPct = pos.trailingStopPct := rfl

theorem recomputeFutures_trailingStopTrigger (price : ℚ) (pos : Position) :
    (recomputeFutures price pos).trailingStopTrigger = futNewTrigger price pos := rfl

theorem futBase_pos (pos : Position) (he : 0 < pos.entryPrice)
    (hh : 0 ≤ pos.highestPriceSinceEntry.getD 0) : 0 < futBase pos := by
  unfold futBase
  split_ifs with h
  · exact lt_of_le_of_ne hh (Ne.symm h)
  · exact he

theorem futNewHighOrLow_pos (price : ℚ) (pos : Position) (hp : 0 < price)
    (he : 0 < pos.entryPrice) (hh : 0 ≤ pos.highestPriceSinceEntry.getD 0) :
    0 < futNewHighOrLow price pos := by
  have hb := futBase_pos pos he hh
  unfold futNewHighOrLow
  split
  · exact lt_of_lt_of_le hp (le_jsMax_right ..)
  · exact jsMin_pos hb hp

theorem futNewHighOrLow_idem (price : ℚ) (pos : Position) (hp : 0 < price)
    (he : 0 < pos.entryPrice) (hh : 0 ≤ pos.highestPriceSinceEntry.getD 0) :
    futNewHighOrLow price (recomputeFutures price pos)
      = futNewHighOrLow price pos := by
  have hpos := futNewHighOrLow_pos price pos hp he hh
  have hbase : futBase (recomputeFutures price pos) = futNewHighOrLow price pos := by
    unfold futBase
    simp only [recomputeFutures, jsTruthy, Option.getD_some]
    rw [if_pos (ne_of_gt hpos)]
  conv_lhs => unfold futNewHighOrLow
  rw [recomputeFutures_side, hbase]
  by_cases h : pos.side = Side.LONG
  · rw [if_pos h]
    have hle : price ≤ futNewHighOrLow price pos := by
      unfold futNewHighOrLow
      rw [if_pos h]
      exact le_jsMax_right ..
    exact jsMax_eq_left hle
  · rw [if_neg h]
    have hle : futNewHighOrLow price pos ≤ price := by
      unfold futNewHighOrLow
      rw [if_neg h]
      exact jsMin_le_right ..
    exact jsMin_eq_left hle

theorem futNewTrigger_idem (price : ℚ) (pos : Position) (hp : 0 < price)
    (he : 0 < pos.entryPrice) (hh : 0 ≤ pos.highestPriceSinceEntry.getD 0) :
    futNewTrigger price (recomputeFutures price pos) = futNewTrigger price pos := by
  have hnl := futNewHighOrLow_idem price pos hp he hh
  conv_lhs => unfold futNewTrigger
  rw [recomputeFutures_trailingStopPct, recomputeFutures_side,
    recomputeFutures_trailingStopTrigger, hnl]
  by_cases c1 : jsTruthy pos.trailingStopPct
  · rw [if_pos c1]
    by_cases c2 : pos.side = Side.LONG
    · rw [if_pos c2]
      by_cases c3 : ¬ jsTruthy pos.trailingStopTrigger ∨
          futNewHighOrLow price pos * (1 - pos.trailingStopPct.getD 0 / 100)
            > pos.trailingStopTrigger.getD 0
      · have hft : futNewTrigger price pos =
            some (futNewHighOrLow price pos *
              (1 - pos.trailingStopPct.getD 0 / 100)) := by
          unfold futNewTrigger
          rw [if_pos c1, if_pos c2, if_pos c3]
        rw [hft]
        split_ifs <;> rfl
      · have hft : futNewTrigger price pos = pos.trailingStopTrigger := by
          unfold futNewTrigger
          rw [if_pos c1, if_pos c2, if_neg c3]
        rw [hft, if_neg c3]
    · rw [if_neg c2]
      by_cases c3 : ¬ jsTruthy pos.trailingStopTrigger ∨
          futNewHighOrLow price pos * (1 + pos.trailingStopPct.getD 0 / 100)
            < pos.trailingStopTrigger.getD 0
      · have hft : futNewTrigger price pos =
            some (futNewHighOrLow price pos *
              (1 + pos.trailingStopPct.getD 0 / 100)) := by
          unfold futNewTrigger
          rw [if_pos c1, if_neg c2, if_pos c3]
        rw [hft]
        split_ifs <;> rfl
      · have hft : futNewTrigger price pos = pos.trailingStopTrigger := by
          unfold futNewTrigger
          rw [if_pos c1, if_neg c2, if_neg c3]
        rw [hft, if_neg c3]
  · rw [if_neg c1]

theorem recomputeFutures_idem (price : ℚ) (pos : Position) (hp : 0 < price)
    (he : 0 < pos.entryPrice) (hh : 0 ≤ pos.highestPriceSinceEntry.getD 0) :
    recomputeFutures price (recomputeFutures price pos)
      = recomputeFutures price pos := by
  have h1 := futNewHighOrLow_idem price pos hp he hh
  have h2 := futNewTrigger_idem price pos hp he hh
  rw [recomputeFutures, h1, h2]
  rfl

theorem calculateEquity_spotPositions (price : ℚ) (pf : Portfolio) :
    (calculateEquity price pf).spotPositions
      = pf.spotPositions.map (recomputeSpot price) := rfl

theorem calculateEquity_futuresPositions (price : ℚ) (pf : Portfolio) :
    (calculateEquity price pf).futuresPositions
      = pf.futuresPositions.map (recomputeFutures price) := rfl

theorem calculateEquity_balance (price : ℚ) (pf : Portfolio) :
    (calculateEquity price pf).balance = pf.balance := rfl

/-- C9: for a fixed positive current price (and positions with positive
entry price and non-negative stored high-water mark, as every position
created by the engine at positive prices has), running `calculateEquity`
twice yields exactly the state of running it once: the high-water-mark
ratchet, trailing triggers, PnL fields and equity are all stable under a
second recompute at the same price. -/
theorem C9_recompute_idempotent (price : ℚ) (pf : Portfolio) (hp : 0 < price)
    (hreg : ∀ p ∈ pf.futuresPositions,
      0 < p.entryPrice ∧ 0 ≤ p.highestPriceSinceEntry.getD 0) :
    calculateEquity price (calculateEquity price pf)
      = calculateEquity price pf := by
  have hsp : (pf.spotPositions.map (recomputeSpot price)).map (recomputeSpot price)
      = pf.spotPositions.map (recomputeSpot price) := by
    rw [List.map_map]
    exact List.map_congr_left fun a _ => recomputeSpot_idem price a hp
  have hfut : (pf.futuresPositions.map (recomputeFutures price)).map
        (recomputeFutures price)
      = pf.futuresPositions.map (recomputeFutures price) := by
    rw [List.map_map]
    exact List.map_congr_left fun a ha =>
      recomputeFutures_idem price a hp (hreg a ha).1 (hreg a ha).2
  have hus : (pf.spotPositions.map (recomputeSpot price)).map (spotUPnL price)
      = pf.spotPositions.map (spotUPnL price) := by
    rw [List.map_map]
    exact List.map_congr_left fun a _ => rfl
  have huf : (pf.futuresPositions.map (recomputeFutures price)).map
        (futuresUPnL price)
      = pf.futuresPositions.map (futuresUPnL price) := by
    rw [List.map_map]
    exact List.map_congr_left fun a _ => rfl
  conv_lhs => rw [calculateEquity]
  rw [calculateEquity_spotPositions, calculateEquity_futuresPositions,
    calculateEquity_balance, hsp, hfut, hus, huf]
  rfl


/-- A concrete mixed portfolio for the C9 witness. -/
def c9Portfolio : Portfolio :=
  { balance := 1000, equity := 1000
    spotPositions :=
      [{ symbol := "ETHUSDT", marketType := MarketType.SPOT,
         side := Side.LONG, amount := 2, entryPrice := 50, currentPrice := 50,
         leverage := 1, trailingStopPct := some 10,
         trailingStopTrigger := some 45, highestPriceSinceEntry := some 50 }]
    futuresPositions :=
      [{ symbol := "BTCUSDT", marketType := MarketType.FUTURES,
         side := Side.SHORT, amount := 1, entryPrice := 100, currentPrice := 100,
         leverage := 2, marginUsed := some 50, trailingStopPct := some 5,
         trailingStopTrigger := some 105, highestPriceSinceEntry := some 100 }]
    tradeHistory := [], equityHistory := [] }

/-- Closed witness for `C9_recompute_idempotent` at price 90. -/
theorem C9_recompute_idempotent_witness :
    calculateEquity 90 (calculateEquity 90 c9Portfolio)
      = calculateEquity 90 c9Portfolio :=
  C9_recompute_idempotent 90 c9Portfolio (by norm_num)
    (by
      intro p hp
      simp only [c9Portfolio, List.mem_singleton] at hp
      subst hp
      refine ⟨by norm_num, by norm_num⟩)

/-! ## C5 — liquidation priority in checkTradeTriggers -/

theorem recomputeFutures_symbol (price : ℚ) (pos : Position) :
    (recomputeFutures price pos).symbol = pos.symbol := rfl

theorem recomputeFutures_liquidationPrice (price : ℚ) (pos : Position) :
    (recomputeFutures price pos).liquidationPrice = pos.liquidationPrice := rfl

theorem executeFuturesClose_reason (now idx : ℕ) (p : Position)
    (amountPct : ℚ) (sym r strat : String) (side : BS) (st : EngineState) :
    (executeFuturesClose now idx p amountPct sym r strat side st).2.reason
      = r := rfl

theorem executeFuturesClose_tradeHistory (now idx : ℕ) (p : Position)
    (amountPct : ℚ) (sym r strat : String) (side : BS) (st : EngineState) :
    (executeFuturesClose now idx p amountPct sym r strat side st).1.portfolio.tradeHistory
      = (executeFuturesClose now idx p amountPct sym r strat side st).2
          :: st.portfolio.tradeHistory := rfl

theorem executeOrder_close_on_single (now : ℕ) (p : Position)
    (st : EngineState) (reason strategy : String) (lev : ℚ)
    (sl tp tpct : Option ℚ)
    (hfut : st.portfolio.futuresPositions = [p])
    (hprice : ¬ st.currentPrice = 0) :
    executeOrder now
        (if p.side = Side.LONG then OrderAction.CLOSE_LONG
          else OrderAction.CLOSE_SHORT) 1 p.symbol reason sl tp strategy
        tpct MarketType.FUTURES lev st
      = ((executeFuturesClose now 0 p 1 p.symbol reason strategy
          (if p.side = Side.LONG then BS.SELL else BS.BUY) st).1,
          some (executeFuturesClose now 0 p 1 p.symbol reason strategy
          (if p.side = Side.LONG then BS.SELL else BS.BUY) st).2) := by
  unfold executeOrder
  rw [if_neg (by push_neg; exact ⟨by norm_num, hprice⟩)]
  rcases hside : p.side with _ | _ <;>
    simp [hfut, List.findIdx_cons, normalizeSide, hside]

/-- C5: for a futures position whose stop-loss, take-profit, trailing
trigger and liquidation price are all simultaneously breached at the current
price, `checkTradeTriggers` fires exactly one close — one trade is
prepended to the history — and its reason is "LIQUIDATION": the liquidation
check precedes stop-loss, take-profit and trailing stop in the per-position
chain. -/
theorem C5_liquidation_priority (now t0 : ℕ) (price : ℚ) (pos : Position)
    (pf : Portfolio)
    (hspot : pf.spotPositions = [])
    (hfut : pf.futuresPositions = [pos])
    (hprice : ¬ price = 0)
    (hliq : jsTruthy pos.liquidationPrice ∧
      (if pos.side = Side.LONG then price ≤ pos.liquidationPrice.getD 0
        else price ≥ pos.liquidationPrice.getD 0))
    (hsl : jsTruthy pos.stopLoss ∧
      (if pos.side = Side.LONG then price ≤ pos.stopLoss.getD 0
        else price ≥ pos.stopLoss.getD 0))
    (htp : jsTruthy pos.takeProfit ∧
      (if pos.side = Side.LONG then price ≥ pos.takeProfit.getD 0
        else price ≤ pos.takeProfit.getD 0))
    (htr : jsTruthy pos.trailingStopTrigger ∧
      (if pos.side = Side.LONG then price ≤ pos.trailingStopTrigger.getD 0
        else price ≥ pos.trailingStopTrigger.getD 0)) :
    ∃ t, (checkTradeTriggers now ⟨pf, price, t0⟩).2 = some t ∧
      t.reason = "LIQUIDATION" ∧
      (checkTradeTriggers now ⟨pf, price, t0⟩).1.portfolio.tradeHistory
        = t :: pf.tradeHistory := by
  have hhit : futuresTriggerHit price (recomputeFutures price pos)
      = some "LIQUIDATION" := by
    unfold futuresTriggerHit
    rw [recomputeFutures_side, recomputeFutures_liquidationPrice]
    rw [if_pos hliq]
  unfold checkTradeTriggers
  dsimp only
  rw [if_neg hprice]
  simp only [calculateEquity_spotPositions, calculateEquity_futuresPositions,
    hspot, hfut, List.map_nil, List.map_cons, List.find?_nil]
  rw [List.find?_cons_of_pos _ (by rw [hhit]; rfl)]
  dsimp only
  rw [hhit]
  simp only [Option.getD_some]
  rw [executeOrder_close_on_single now (recomputeFutures price pos) _
    "LIQUIDATION" "Risk" (recomputeFutures price pos).leverage
    (some 0) (some 0) (some 0) (by simp [calculateEquity, hfut]) hprice]
  exact ⟨_, rfl, executeFuturesClose_reason .., rfl⟩


/-- A LONG futures position with every exit level simultaneously breached
at price 50. -/
def c5Position : Position :=
  { symbol := "BTCUSDT", marketType := MarketType.FUTURES, side := Side.LONG
    amount := 1, entryPrice := 100, currentPrice := 100, leverage := 2
    marginUsed := some 50, liquidationPrice := some 60, stopLoss := some 70
    takeProfit := some 40, trailingStopTrigger := some 55
    highestPriceSinceEntry := some 100 }

/-- The portfolio holding only `c5Position`. -/
def c5Portfolio : Portfolio :=
  { balance := 1000, equity := 1000, spotPositions := []
    futuresPositions := [c5Position], tradeHistory := [], equityHistory := [] }

/-- Closed witness for `C5_liquidation_priority` at price 50. -/
theorem C5_liquidation_priority_witness :
    ∃ t, (checkTradeTriggers 0 ⟨c5Portfolio, 50, 0⟩).2 = some t ∧
      t.reason = "LIQUIDATION" ∧
      (checkTradeTriggers 0 ⟨c5Portfolio, 50, 0⟩).1.portfolio.tradeHistory
        = t :: c5Portfolio.tradeHistory :=
  C5_liquidation_priority 0 0 50 c5Position c5Portfolio rfl rfl
    (by norm_num)
    ⟨by norm_num [jsTruthy, c5Position], by norm_num [c5Position]⟩
    ⟨by norm_num [jsTruthy, c5Position], by norm_num [c5Position]⟩
    ⟨by norm_num [jsTruthy, c5Position], by norm_num [c5Position]⟩
    ⟨by norm_num [jsTruthy, c5Position], by norm_num [c5Position]⟩

/-! ## C7 — flip semantics -/

theorem executeFuturesClose_full_single (now : ℕ) (p : Position)
    (st : EngineState) (sym r strat : String) (side : BS)
    (hfut : st.portfolio.futuresPositions = [p]) :
    (executeFuturesClose now 0 p 1 sym r strat side st).1.portfolio.futuresPositions
      = [] ∧
    (executeFuturesClose now 0 p 1 sym r strat side st).1.portfolio.balance
      = st.portfolio.balance + (p.marginUsed.getD 0 +
        (st.currentPrice - p.entryPrice) * p.amount *
          (if p.side = Side.LONG then 1 else -1)) ∧
    (executeFuturesClose now 0 p 1 sym r strat side st).2.amount = p.amount := by
  refine ⟨?_, ?_, ?_⟩
  · unfold executeFuturesClose
    simp [hfut, captureEquitySnapshot, savePortfolioState, mul_one, sub_self,
      zero_mul]
  · unfold executeFuturesClose
    simp [captureEquitySnapshot, savePortfolioState, mul_one, mul_ite,
      mul_neg]
  · unfold executeFuturesClose
    simp [mul_one]

/-- C7 (amended): when the futures book holds exactly one position on the
symbol and it is LONG, `OPEN_SHORT` produces exactly one close trade (a full
close of the old LONG, reason "Flip Position") followed by one open trade
(the trade history gains the open in front of the close), and afterwards the
symbol holds exactly the new SHORT position.  The uniqueness premise matters:
with several same-symbol positions (reachable by repeated same-side opens)
the flip closes only the first, and a symbol can end up holding both sides —
see the counterexample. -/
theorem C7_flip_unique_long (now : ℕ) (p : Position) (st : EngineState)
    (amountPct lev : ℚ) (reason strategy : String) (sl tp tpct : Option ℚ)
    (hfut : st.portfolio.futuresPositions = [p])
    (hside : p.side = Side.LONG)
    (hpct : ¬ amountPct ≤ 0)
    (hprice : ¬ st.currentPrice = 0)
    (hbud : ¬ (st.portfolio.balance + (p.marginUsed.getD 0 +
        (st.currentPrice - p.entryPrice) * p.amount)) * amountPct < 10) :
    ∃ closeTr openTr,
      (executeOrder now OrderAction.OPEN_SHORT amountPct p.symbol reason sl tp
        strategy tpct MarketType.FUTURES lev st).2 = some openTr ∧
      (executeOrder now OrderAction.OPEN_SHORT amountPct p.symbol reason sl tp
        strategy tpct MarketType.FUTURES lev st).1.portfolio.tradeHistory
        = openTr :: closeTr :: st.portfolio.tradeHistory ∧
      closeTr.reason = "Flip Position" ∧ closeTr.amount = p.amount ∧
      closeTr.pnl.isSome ∧ openTr.side = BS.SELL ∧
      (executeOrder now OrderAction.OPEN_SHORT amountPct p.symbol reason sl tp
        strategy tpct MarketType.FUTURES lev st).1.portfolio.futuresPositions.map
        Position.side = [Side.SHORT] ∧
      (executeOrder now OrderAction.OPEN_SHORT amountPct p.symbol reason sl tp
        strategy tpct MarketType.FUTURES lev st).1.portfolio.futuresPositions.map
        Position.symbol = [p.symbol] := by
  unfold executeOrder
  rw [if_neg (not_or.mpr ⟨hpct, hprice⟩)]
  dsimp only
  simp [hfut, hside, normalizeSide, executeFuturesClose,
    captureEquitySnapshot, savePortfolioState, List.findIdx_cons,
    mul_one, sub_self, zero_mul, hbud]


/-- First `OPEN_LONG` of 10% from the fresh sample state. -/
def c7a : EngineState :=
  (executeOrder 0 OrderAction.OPEN_LONG (1/10) "BTCUSDT" "e1" none none
    "Manual" none MarketType.FUTURES 1 sampleState).1

/-- Second `OPEN_LONG` of 10%: the engine pushes a second LONG position on
the same symbol (same-side opens are not merged or rejected). -/
def c7b : EngineState :=
  (executeOrder 0 OrderAction.OPEN_LONG (1/10) "BTCUSDT" "e2" none none
    "Manual" none MarketType.FUTURES 1 c7a).1

/-- `OPEN_SHORT` of 10% after the two longs: the flip closes only the first
LONG (the one `findIndex` returns) and then opens the SHORT. -/
def c7c : EngineState :=
  (executeOrder 0 OrderAction.OPEN_SHORT (1/10) "BTCUSDT" "e3" none none
    "Manual" none MarketType.FUTURES 1 c7b).1

/-- C7, counterexample.  After `OPEN_LONG`, `OPEN_LONG`, `OPEN_SHORT` on the
same symbol (all reachable engine calls from the fresh state), the futures
book holds a LONG and a SHORT on `BTCUSDT` simultaneously: the flip logic
only closes the first position found for the symbol, so "no symbol ever
holds both sides" is violated. -/
theorem C7_counterexample :
    c7c.portfolio.futuresPositions.map Position.side
      = [Side.LONG, Side.SHORT] ∧
    c7c.portfolio.futuresPositions.map Position.symbol
      = ["BTCUSDT", "BTCUSDT"] :=
  ⟨by with_unfolding_all rfl, by with_unfolding_all rfl⟩

/-- The single LONG position used by the C7 witness. -/
def c7Long : Position :=
  { symbol := "BTCUSDT", marketType := MarketType.FUTURES, side := Side.LONG
    amount := 10, entryPrice := 100, currentPrice := 100, leverage := 1
    marginUsed := some 1000 }

/-- Closed witness for `C7_flip_unique_long`: flipping a lone 10-coin LONG
(margin 1000) from a 9000-cash state at price 100. -/
theorem C7_flip_unique_long_witness :
    ∃ closeTr openTr,
      (executeOrder 0 OrderAction.OPEN_SHORT (1/10) c7Long.symbol "flip" none
        none "Manual" none MarketType.FUTURES 1
        ⟨{ balance := 9000, equity := 10000, spotPositions := []
           futuresPositions := [c7Long], tradeHistory := []
           equityHistory := [] }, 100, 0⟩).2 = some openTr ∧
      (executeOrder 0 OrderAction.OPEN_SHORT (1/10) c7Long.symbol "flip" none
        none "Manual" none MarketType.FUTURES 1
        ⟨{ balance := 9000, equity := 10000, spotPositions := []
           futuresPositions := [c7Long], tradeHistory := []
           equityHistory := [] }, 100, 0⟩).1.portfolio.tradeHistory
        = openTr :: closeTr ::
          ({ balance := 9000, equity := 10000, spotPositions := []
             futuresPositions := [c7Long], tradeHistory := []
             equityHistory := [] } : Portfolio).tradeHistory ∧
      closeTr.reason = "Flip Position" ∧ closeTr.amount = c7Long.amount ∧
      closeTr.pnl.isSome ∧ openTr.side = BS.SELL ∧
      (executeOrder 0 OrderAction.OPEN_SHORT (1/10) c7Long.symbol "flip" none
        none "Manual" none MarketType.FUTURES 1
        ⟨{ balance := 9000, equity := 10000, spotPositions := []
           futuresPositions := [c7Long], tradeHistory := []
           equityHistory := [] }, 100, 0⟩).1.portfolio.futuresPositions.map
        Position.side = [Side.SHORT] ∧
      (executeOrder 0 OrderAction.OPEN_SHORT (1/10) c7Long.symbol "flip" none
        none "Manual" none MarketType.FUTURES 1
        ⟨{ balance := 9000, equity := 10000, spotPositions := []
           futuresPositions := [c7Long], tradeHistory := []
           equityHistory := [] }, 100, 0⟩).1.portfolio.futuresPositions.map
        Position.symbol = [c7Long.symbol] :=
  C7_flip_unique_long 0 c7Long
    ⟨{ balance := 9000, equity := 10000, spotPositions := []
       futuresPositions := [c7Long], tradeHistory := []
       equityHistory := [] }, 100, 0⟩
    (1/10) 1 "flip" "Manual" none none none rfl rfl
    (by norm_num) (by norm_num) (by norm_num [c7Long])

end Bitrader
